import Mathlib

/-!
Shallow embedding of the scoring core of the voice-clone repository:

* `calculate_detection_score` (src/backend/src/voice_clone/services/detection.py)
* `calculate_confidence_score` (src/backend/src/voice_clone/services/voice_clone.py,
  the pure scoring body, parametrised by the sample list and the `has_dna` flag
  that the surrounding database code supplies)

Python strings are modelled as `List Char` with ASCII case folding (the spec
notes no locale dependence beyond ASCII).  Python ints are `Int`/`Nat`; the
few float comparisons (coefficient of variation, TTR, comma ratio, standard
deviation thresholds) are decided exactly as equivalent integer inequalities,
obtained by clearing positive denominators, as documented at each site.
-/

namespace VoiceClone

abbrev Str := List Char

/-- ASCII lower-casing of a single character (Python `str.lower`, ASCII part). -/
def lowerChar (c : Char) : Char :=
  if 'A' ≤ c ∧ c ≤ 'Z' then Char.ofNat (c.toNat + 32) else c

/-- Python `str.lower()` restricted to ASCII. -/
def pyLower (s : Str) : Str := s.map lowerChar

/-- ASCII upper-case test (Python `str.isupper` on a single ASCII character). -/
def isAsciiUpper (c : Char) : Bool := decide ('A' ≤ c) && decide (c ≤ 'Z')

/-- Python whitespace (`str.split()` / `str.strip()` class, ASCII part). -/
def isSpaceChar (c : Char) : Bool :=
  c == ' ' || c == '\t' || c == '\n' || c == '\r' || c == '\x0b' || c == '\x0c'

/-- Python regex `\w` (ASCII part): letters, digits, underscore. -/
def isWordChar (c : Char) : Bool := c.isAlpha || c.isDigit || c == '_'

/-- Python `str.strip()`: drop leading and trailing whitespace. -/
def pyStrip (s : Str) : Str :=
  ((s.dropWhile isSpaceChar).reverse.dropWhile isSpaceChar).reverse

/-- Python `str.split()` with no separator: split on whitespace runs, drop empties. -/
def pySplitWs (s : Str) : List Str :=
  (s.splitOnP isSpaceChar).filter (fun p => !p.isEmpty)

/-- Maximal runs of word characters (`re.findall(r"\b\w+\b", s)`). -/
def wordRuns (s : Str) : List Str :=
  (s.splitOnP (fun c => !isWordChar c)).filter (fun p => !p.isEmpty)

/-- Python `other.startswith(pre)` for modelled strings. -/
def strPre : Str → Str → Bool
  | [], _ => true
  | _ :: _, [] => false
  | a :: as, b :: bs => a == b && strPre as bs

/-- Python `needle in hay` (contiguous substring containment). -/
def strHas (needle : Str) : Str → Bool
  | [] => needle.isEmpty
  | c :: rest => strPre needle (c :: rest) || strHas needle rest

/-- The apostrophe character, used inside several marker phrases. -/
def aposC : Char := Char.ofNat 39

/-- Builds a string with a single apostrophe between the two halves. -/
def strApos (a b : String) : Str := a.toList ++ aposC :: b.toList

theorem strPre_iff : ∀ {n h : Str}, strPre n h = true ↔ n <+: h
  | [], h => by simp [strPre]
  | a :: as, [] => by simp [strPre]
  | a :: as, b :: bs => by
    simp only [strPre, Bool.and_eq_true, beq_iff_eq, List.cons_prefix_cons]
    exact and_congr Iff.rfl strPre_iff

theorem strHas_iff : ∀ {n h : Str}, strHas n h = true ↔ n <:+: h
  | n, [] => by simp [strHas, List.isEmpty_iff]
  | n, c :: rest => by
    simp only [strHas, Bool.or_eq_true, strPre_iff, List.infix_cons_iff]
    exact or_congr Iff.rfl strHas_iff

/-! ## Score results -/

/-- The dict returned by both entry points: a total and an ordered breakdown. -/
structure ScoreResult where
  score : Int
  breakdown : List (String × Int)
deriving DecidableEq

/-- Computes `sum(breakdown.values())`. -/
def sumValues (l : List (String × Int)) : Int := (l.map Prod.snd).sum

/-- Python `min` on machine integers, written so the kernel can evaluate it. -/
def imin (a b : Int) : Int := if a ≤ b then a else b

/-- Python `max` on machine integers, written so the kernel can evaluate it. -/
def imax (a b : Int) : Int := if a ≤ b then b else a

/-- Python `min` on non-negative integers. -/
def nmin (a b : Nat) : Nat := if a ≤ b then a else b

/-- Python `max` on non-negative integers. -/
def nmax (a b : Nat) : Nat := if a ≤ b then b else a

theorem imin_eq (a b : Int) : imin a b = min a b := by unfold imin; rw [min_def]

theorem imax_eq (a b : Int) : imax a b = max a b := by unfold imax; rw [max_def]

theorem nmin_eq (a b : Nat) : nmin a b = min a b := by unfold nmin; rw [Nat.min_def]

theorem nmax_eq (a b : Nat) : nmax a b = max a b := by unfold nmax; rw [Nat.max_def]

/-! ## Confidence scorer (voice_clone.py `calculate_confidence_score`) -/

/-- Source type enum of writing samples. -/
inductive SourceType where
  | paste
  | file
  | url
deriving DecidableEq

/-- The per-sample data the confidence scorer reads. -/
structure Sample where
  word_count : Nat
  source_type : SourceType
deriving DecidableEq

/-- Computes `sum(s.word_count for s in samples)`. -/
def sampleWordSum (samples : List Sample) : Nat :=
  (samples.map Sample.word_count).sum

/-- Word count sub-score (max 30 pts). -/
def word_count_score (samples : List Sample) : Int :=
  let total_words := sampleWordSum samples
  if total_words ≥ 10000 then 30
  else if total_words ≥ 5000 then 25
  else if total_words ≥ 2500 then 20
  else if total_words ≥ 1000 then 15
  else if total_words ≥ 500 then 10
  else ((nmin (total_words / 50) 10 : Nat) : Int)

/-- Sample count sub-score (max 20 pts). -/
def sample_count_score (samples : List Sample) : Int :=
  let sample_count := samples.length
  if sample_count ≥ 10 then 20
  else if sample_count ≥ 5 then 15
  else if sample_count ≥ 3 then 10
  else ((sample_count * 3 : Nat) : Int)

/-- Content type variety sub-score (max 20 pts). -/
def content_variety_score (samples : List Sample) : Int :=
  let source_types := (samples.map Sample.source_type).dedup.length
  let variety0 : Int := source_types * 5
  let variety :=
    if samples.isEmpty then variety0
    else
      let word_counts := samples.map Sample.word_count
      let has_short : Nat := if word_counts.any (fun wc => wc < 200) then 1 else 0
      let has_medium : Nat := if word_counts.any (fun wc => 200 ≤ wc ∧ wc < 1000) then 1 else 0
      let has_long : Nat := if word_counts.any (fun wc => wc ≥ 1000) then 1 else 0
      variety0 + ((has_short + has_medium + has_long) * 3 : Nat)
  imin variety 20

/-- Sample length distribution sub-score (max 15 pts).  The source compares
`std_dev = sqrt(variance)` against 500/200/100 with `variance =
sum((wc - avg)^2)/n`, `avg = sum/n`; writing `S = sum`, `D = sum((n*wc - S)^2)`
gives `variance = D / n^3`, so `std_dev > t` holds exactly when
`D > t^2 * n^3` (all quantities non-negative). -/
def length_distribution_score (samples : List Sample) : Int :=
  let length_score : Int :=
    if samples.isEmpty then 0
    else
      let word_counts := samples.map Sample.word_count
      if word_counts.length ≥ 3 then
        let n : Int := word_counts.length
        let S : Int := (word_counts.map (fun wc => (wc : Int))).sum
        let D : Int :=
          (word_counts.map (fun wc => (n * (wc : Int) - S) * (n * (wc : Int) - S))).sum
        if D > 250000 * (n * n * n) then 15
        else if D > 40000 * (n * n * n) then 12
        else if D > 10000 * (n * n * n) then 8
        else 5
      else ((word_counts.length * 3 : Nat) : Int)
  imin length_score 15

/-- Consistency sub-score (max 15 pts). -/
def consistency_score (samples : List Sample) (has_dna : Bool) : Int :=
  if has_dna then 15
  else if samples.length ≥ 3 then 8
  else if samples.length ≥ 1 then 3
  else 0

/-- The pure scoring body of `VoiceCloneService.calculate_confidence_score`,
parametrised by the samples of the clone and whether `current_dna_id` is set. -/
def calculate_confidence_score (samples : List Sample) (has_dna : Bool) : ScoreResult :=
  let breakdown : List (String × Int) :=
    [("word_count", word_count_score samples),
     ("sample_count", sample_count_score samples),
     ("content_variety", content_variety_score samples),
     ("length_distribution", length_distribution_score samples),
     ("consistency", consistency_score samples has_dna)]
  ⟨imin (sumValues breakdown) 100, breakdown⟩

/-! ## Detection scorer (detection.py) -/

/-- Python values a Voice DNA dict can hold (enough structure for the profile
lookups done by `_score_personality`). -/
inductive PyVal where
  | pstr (s : Str)
  | pdict (d : List (Str × PyVal))
  | plist (xs : List PyVal)
  | pint (n : Int)
  | pnone

/-- A Voice DNA profile: the Python dict passed as `voice_dna`. -/
abbrev DnaDict := List (Str × PyVal)

/-- Python `d.get(k, default)` on a dict. -/
def pyGetD (d : DnaDict) (k : Str) (default : PyVal) : PyVal :=
  (d.lookup k).getD default

/-- Sentence splitting `_get_sentences`: split on `[.!?]+` runs, strip, drop empties.  Splitting
character-wise and filtering empty stripped parts is extensionally the same as
splitting on runs, because empties are dropped afterwards. -/
def get_sentences (text : Str) : List Str :=
  (((text.splitOnP (fun c => c == '.' || c == '!' || c == '?')).map pyStrip).filter
    (fun s => !s.isEmpty))

/-- Word tokenisation `_get_words`: `re.findall(r"\b\w+\b", text.lower())`. -/
def get_words (text : Str) : List Str := wordRuns (pyLower text)

/-! ### Sentence variety (max 20) -/

/-- Sentence variety `_score_sentence_variety`.  With `n` sentences, word counts `l`, `S` their
sum and `D = sum((n*l - S)^2)`, the source quantities `mean = S/n`, `variance = D/n^3`
and `cv = std_dev/mean` satisfy `mean == 0` iff `S = 0`, and for `S > 0` the
float comparison `cv > t` holds exactly when `D > t^2 * n * S^2` (clearing the
positive denominators), which is how each threshold is decided below. -/
def score_sentence_variety (text : Str) : Int :=
  let sentences := get_sentences text
  if sentences.length < 2 then 5
  else
    let lengths := sentences.map (fun s => (pySplitWs s).length)
    if lengths.isEmpty then 5
    else
      let n : Int := lengths.length
      let S : Int := (lengths.map (fun l => (l : Int))).sum
      if S = 0 then 5
      else
        let D : Int := (lengths.map (fun l => (n * (l : Int) - S) * (n * (l : Int) - S))).sum
        if 4 * D > n * S * S then 20
        else if 25 * D > 4 * (n * S * S) then 17
        else if 100 * D > 9 * (n * S * S) then 14
        else if 25 * D > n * S * S then 10
        else 5

/-! ### Vocabulary diversity (max 15) -/

/-- Vocabulary diversity `_score_vocabulary_diversity`.  With `W` total and `U` distinct words the
source ttr is `U/W`, multiplied by 1.3 when `W > 200`; each float
comparison `ttr > x/10` is decided exactly as `10*U > x*W` (respectively
`13*U > x*W` after the boost), clearing the positive denominators. -/
def score_vocabulary_diversity (text : Str) : Int :=
  let words := get_words text
  if words.length < 10 then 5
  else
    let W := words.length
    let U := words.dedup.length
    let c : Nat := if W > 200 then 13 * U else 10 * U
    if c > 7 * W then 15
    else if c > 6 * W then 12
    else if c > 5 * W then 9
    else if c > 4 * W then 6
    else 3

/-! ### Specificity (max 15): the seven regex categories -/

/-- Helper for `\b\d{1,2}[%]\b` anchored at the current position: a run of one
or two digits, then `%`, then (because `%` is a non-word character, the final
`\b` demands it) a word character. -/
def pctAt (s : Str) : Bool :=
  let ds := s.takeWhile Char.isDigit
  decide (1 ≤ ds.length) && decide (ds.length ≤ 2) &&
    (match s.drop ds.length with
     | '%' :: d :: _ => isWordChar d
     | _ => false)

/-- Scanner for `re.search(r"\b\d{1,2}[%]\b", s)`: tries `pctAt` at every
position whose previous character is not a word character. -/
def scanPct : Bool → Str → Bool
  | _, [] => false
  | prevW, c :: rest => (!prevW && pctAt (c :: rest)) || scanPct (isWordChar c) rest

def pctMatch (s : Str) : Bool := scanPct false s

/-- Helper for `\b\d+[,.]\d+\b` anchored at the current position. -/
def decAt (s : Str) : Bool :=
  let ds := s.takeWhile Char.isDigit
  decide (1 ≤ ds.length) &&
    (match s.drop ds.length with
     | c :: rest =>
        (c == ',' || c == '.') &&
          (let ts := rest.takeWhile Char.isDigit
           decide (1 ≤ ts.length) &&
             (match rest.drop ts.length with
              | [] => true
              | d :: _ => !isWordChar d))
     | [] => false)

def scanDec : Bool → Str → Bool
  | _, [] => false
  | prevW, c :: rest => (!prevW && decAt (c :: rest)) || scanDec (isWordChar c) rest

def decMatch (s : Str) : Bool := scanDec false s

/-- Helper for `\b\d{4}\b`: a maximal run of exactly four digits not followed
by a word character. -/
def yearAt (s : Str) : Bool :=
  let ds := s.takeWhile Char.isDigit
  ds.length == 4 &&
    (match s.drop 4 with
     | [] => true
     | d :: _ => !isWordChar d)

def scanYear : Bool → Str → Bool
  | _, [] => false
  | prevW, c :: rest => (!prevW && yearAt (c :: rest)) || scanYear (isWordChar c) rest

def yearMatch (s : Str) : Bool := scanYear false s

/-- Quoted-span regex (a double quote, one or more non-quote characters, a
closing double quote, searched anywhere): two quote characters with at least one
non-quote character strictly between some adjacent pair of quotes. -/
def quotedMatch (s : Str) : Bool :=
  let parts := s.splitOnP (fun c => c == '"')
  ((parts.drop 1).dropLast).any (fun p => !p.isEmpty)

/-- Word-boundary alternation `re.search(r"\b(w1|w2|...)\b", s)` for alternatives made of word
characters: one of them occurs as a maximal word-character run. -/
def wordAltMatch (ws : List Str) (s : Str) : Bool :=
  ws.any (fun w => (wordRuns s).contains w)

def weekday_names : List Str :=
  ["monday", "tuesday", "wednesday", "thursday", "friday", "saturday",
   "sunday"].map String.toList

def month_names : List Str :=
  ["january", "february", "march", "april", "may", "june", "july", "august",
   "september", "october", "november", "december"].map String.toList

def specificity_words : List Str :=
  ["specifically", "particularly", "exactly", "precisely"].map String.toList

/-- The seven `specific_patterns` checks, in source order, on the lowered text. -/
def specificMatchers (tl : Str) : List Bool :=
  [pctMatch tl, decMatch tl, wordAltMatch weekday_names tl,
   wordAltMatch month_names tl, yearMatch tl, quotedMatch tl,
   wordAltMatch specificity_words tl]

def generic_phrases : List Str :=
  [strApos "in today" "s world",
   "in conclusion".toList,
   strApos "it" "s important to note",
   "as we all know".toList,
   "in this day and age".toList,
   "going forward".toList,
   "at the end of the day".toList,
   "it goes without saying".toList]

/-- Specificity scoring `_score_specificity`. -/
def score_specificity (text : Str) : Int :=
  let tl := pyLower text
  let s1 : Int := (specificMatchers tl).foldl (fun acc b => if b then acc + 2 else acc) 0
  let s2 : Int := generic_phrases.foldl (fun acc p => if strHas p tl then acc - 2 else acc) s1
  imax 0 (imin 15 (s2 + 8))

/-! ### Transition naturalness (max 10) -/

def ai_transitions : List Str :=
  ["furthermore", "moreover", "additionally", "in addition", "consequently",
   "subsequently", "thus", "hence"].map String.toList

def natural_transitions : List Str :=
  ["but", "so", "and", "also", "though", "still", "yet", "anyway", "look",
   "honestly"].map String.toList

/-- Transition scoring `_score_transitions`: presence (substring containment) of each listed
transition in the lowered text. -/
def score_transitions (text : Str) : Int :=
  let tl := pyLower text
  let ai_count : Int := (ai_transitions.countP (fun t => strHas t tl) : Nat)
  let natural_count : Int := (natural_transitions.countP (fun t => strHas t tl) : Nat)
  imax 0 (imin 10 (5 + natural_count * 2 - ai_count * 2))

/-! ### Opening/closing patterns (max 10) -/

def ai_openings : List Str :=
  [strApos "in today" "s",
   "have you ever".toList,
   "let me tell you".toList,
   strApos "i" "m excited to"]

def cta_patterns : List Str :=
  ["let me know".toList, "share your".toList, "drop a comment".toList,
   "what do you think".toList]

/-- Opening and closing scoring `_score_openings_closings`.  Note that the source lower-cases the first
sentence before testing `first_sentence[0].isupper()`. -/
def score_openings_closings (text : Str) (voice_dna : Option DnaDict) : Int :=
  match get_sentences text with
  | [] => 5
  | first0 :: restS =>
    let first := pyLower first0
    let lastS := if restS.isEmpty then ([] : Str) else pyLower ((first0 :: restS).getLastD [])
    let openPen : Int := 2 * ((ai_openings.countP (fun o => strPre o first) : Nat) : Int)
    let directBonus : Int :=
      if (match first with
          | c :: _ => isAsciiUpper c
          | [] => false) && decide ((pySplitWs first).length < 10) then 2 else 0
    let ctaBonus : Int :=
      if !lastS.isEmpty && cta_patterns.any (fun c => strHas c lastS) then 1 else 0
    imax 0 (imin 10 (5 - openPen + directBonus + ctaBonus))

/-! ### Punctuation variety (max 10) -/

/-- Punctuation scoring `_score_punctuation`.  The float condition `1.0 < commas/sentences < 3.0`
(with `sentences > 0`) is decided exactly as `sentences < commas ∧
commas < 3*sentences`. -/
def score_punctuation (text : Str) (voice_dna : Option DnaDict) : Int :=
  let has_em_dash := strHas ("—".toList) text || strHas (" - ".toList) text
  let has_ellipsis := strHas ("...".toList) text || strHas ("…".toList) text
  let has_parenthetical := text.contains '(' && text.contains ')'
  let has_exclamation := text.contains '!'
  let has_question := text.contains '?'
  let variety_count : Nat :=
    [has_em_dash, has_ellipsis, has_parenthetical, has_exclamation,
     has_question].countP id
  let comma_count := text.count ','
  let sentence_count := (get_sentences text).length
  let commaBonus : Int :=
    if 0 < sentence_count ∧ sentence_count < comma_count ∧
        comma_count < 3 * sentence_count then 2 else 0
  imax 0 (imin 10 (5 + ((nmin variety_count 3 : Nat) : Int) + commaBonus))

/-! ### Personality markers (max 10) -/

def personality_words : List Str :=
  ["i", "we", "my", "our", "honestly", "frankly", "actually", "literally",
   "seriously"].map String.toList

/-- End-anchored question mark `re.search(r"\?$", s)`: a question mark at end of string or just before a
final newline. -/
def endsQM (s : Str) : Bool :=
  match s.reverse with
  | '?' :: _ => true
  | '\n' :: '?' :: _ => true
  | _ => false

/-- Number of the 11 `personality_markers` regexes matching the lowered text. -/
def markerCount (tl : Str) : Nat :=
  (personality_words.countP (fun w => (wordRuns tl).contains w))
    + (if tl.contains '!' then 1 else 0)
    + (if endsQM tl then 1 else 0)

/-- Lookup `voice_dna.get("distinctive_signatures", {})`. -/
def sigVal (d : DnaDict) : PyVal :=
  pyGetD d ("distinctive_signatures".toList) (PyVal.pdict [])

/-- Number of `distinctive_signatures.examples` entries that are strings whose
lower-casing occurs in the lowered text.  A `pstr` examples value is iterated
character-wise (Python string iteration); a `pdict` examples value is iterated
over its keys; `pint`/`pnone` would raise `TypeError` in CPython and lie
outside the shapes any claim quantifies over — modelled as contributing 0. -/
def sigCount (tl : Str) (voice_dna : Option DnaDict) : Nat :=
  match voice_dna with
  | none => 0
  | some d =>
    if d.isEmpty then 0
    else
      match sigVal d with
      | PyVal.pdict sigs =>
        match pyGetD sigs ("examples".toList) (PyVal.plist []) with
        | PyVal.plist xs =>
          xs.countP (fun e =>
            match e with
            | PyVal.pstr s => strHas (pyLower s) tl
            | _ => false)
        | PyVal.pstr s => s.countP (fun c => strHas (pyLower [c]) tl)
        | PyVal.pdict d2 => (d2.map Prod.fst).countP (fun k => strHas (pyLower k) tl)
        | _ => 0
      | _ => 0

/-- Personality scoring `_score_personality`: `int(5 + 0.5*markers + 2*signature_hits)` equals
`5 + 2*signature_hits + markers / 2` (floor division; the halves are exact in
binary floating point). -/
def score_personality (text : Str) (voice_dna : Option DnaDict) : Int :=
  let tl := pyLower text
  let base : Nat := 5 + markerCount tl / 2 + 2 * sigCount tl voice_dna
  imax 0 (imin 10 (base : Int))

/-! ### Structure variety (max 10) -/

/-- Python `text.split(sep)` for the fixed separator `"\n\n"` (leftmost,
non-overlapping). -/
def splitPara (acc : Str) : Str → List Str
  | '\n' :: '\n' :: rest => acc.reverse :: splitPara [] rest
  | c :: rest => splitPara (c :: acc) rest
  | [] => [acc.reverse]

def pySplitParas (text : Str) : List Str := splitPara [] text

def bullet_markers : List Str :=
  ["-".toList, "•".toList, "*".toList, "→".toList]

/-- Structure scoring `_score_structure`; the float comparison `unique >= n * 0.7` is decided
exactly as `7 * n ≤ 10 * unique`. -/
def score_structure (text : Str) : Int :=
  let paragraphs := ((pySplitParas text).map pyStrip).filter (fun p => !p.isEmpty)
  let paraBonus : Int :=
    if 1 < paragraphs.length then
      match paragraphs.map (fun p => (pySplitWs p).length) with
      | [] => 0
      | x :: xs => if 20 < xs.foldl nmax x - xs.foldl nmin x then 2 else 0
    else 0
  let lines := text.splitOnP (fun c => c == '\n')
  let has_bullets := lines.any (fun l0 =>
    let ls := pyStrip l0
    bullet_markers.any (fun b => strPre b ls))
  let has_numbers := lines.any (fun l0 =>
    let ls := pyStrip l0
    let ds := ls.takeWhile Char.isDigit
    !ds.isEmpty &&
      (match ls.drop ds.length with
       | '.' :: _ => true
       | _ => false))
  let listBonus : Int := if has_bullets || has_numbers then 2 else 0
  let para_starts := paragraphs.map (fun p =>
    match pySplitWs p with
    | w :: _ => pyLower w
    | [] => ([] : Str))
  let startBonus : Int :=
    if 7 * para_starts.length ≤ 10 * para_starts.dedup.length then 1 else 0
  imax 0 (imin 10 (5 + paraBonus + listBonus + startBonus))

/-! ### The detection entry point -/

/-- Detection entry point `calculate_detection_score` from detection.py. -/
def calculate_detection_score (text : Str) (voice_dna : Option DnaDict) : ScoreResult :=
  if text.isEmpty || (pyStrip text).isEmpty then ⟨0, []⟩
  else
    let breakdown : List (String × Int) :=
      [("sentence_variety", score_sentence_variety text),
       ("vocabulary_diversity", score_vocabulary_diversity text),
       ("specificity", score_specificity text),
       ("transition_naturalness", score_transitions text),
       ("opening_closing", score_openings_closings text voice_dna),
       ("punctuation", score_punctuation text voice_dna),
       ("personality", score_personality text voice_dna),
       ("structure", score_structure text)]
    ⟨imin (sumValues breakdown) 100, breakdown⟩

/-! ## Helper lemmas: sub-score bounds -/

theorem clamp_bounds (k x : Int) (hk : 0 ≤ k) :
    0 ≤ imax 0 (imin k x) ∧ imax 0 (imin k x) ≤ k := by
  rw [imax_eq, imin_eq]
  exact ⟨le_max_left 0 _, max_le hk (min_le_left _ _)⟩

theorem sv_bounds (t : Str) :
    5 ≤ score_sentence_variety t ∧ score_sentence_variety t ≤ 20 := by
  simp only [score_sentence_variety]
  repeat' split <;> norm_num

theorem vd_bounds (t : Str) :
    3 ≤ score_vocabulary_diversity t ∧ score_vocabulary_diversity t ≤ 15 := by
  simp only [score_vocabulary_diversity]
  repeat' split <;> norm_num

theorem spec_bounds (t : Str) :
    0 ≤ score_specificity t ∧ score_specificity t ≤ 15 := by
  simp only [score_specificity]
  exact clamp_bounds 15 _ (by norm_num)

theorem tr_bounds (t : Str) :
    0 ≤ score_transitions t ∧ score_transitions t ≤ 10 := by
  simp only [score_transitions]
  exact clamp_bounds 10 _ (by norm_num)

theorem oc_bounds (t : Str) (dna : Option DnaDict) :
    0 ≤ score_openings_closings t dna ∧ score_openings_closings t dna ≤ 10 := by
  unfold score_openings_closings
  split
  · norm_num
  · exact clamp_bounds 10 _ (by norm_num)

theorem pu_bounds (t : Str) (dna : Option DnaDict) :
    0 ≤ score_punctuation t dna ∧ score_punctuation t dna ≤ 10 := by
  simp only [score_punctuation]
  exact clamp_bounds 10 _ (by norm_num)

theorem pe_bounds (t : Str) (dna : Option DnaDict) :
    0 ≤ score_personality t dna ∧ score_personality t dna ≤ 10 := by
  simp only [score_personality]
  exact clamp_bounds 10 _ (by norm_num)

theorem st_bounds (t : Str) :
    0 ≤ score_structure t ∧ score_structure t ≤ 10 := by
  simp only [score_structure]
  exact clamp_bounds 10 _ (by norm_num)

theorem wc_bounds (samples : List Sample) :
    0 ≤ word_count_score samples ∧ word_count_score samples ≤ 30 := by
  simp only [word_count_score, nmin_eq]
  repeat' split <;> omega

theorem sc_bounds (samples : List Sample) :
    0 ≤ sample_count_score samples ∧ sample_count_score samples ≤ 20 := by
  simp only [sample_count_score]
  repeat' split <;> omega

theorem cv_bounds (samples : List Sample) :
    0 ≤ content_variety_score samples ∧ content_variety_score samples ≤ 20 := by
  simp only [content_variety_score, imin_eq]
  constructor
  · apply le_min _ (by norm_num)
    split
    · positivity
    · repeat' split <;> positivity
  · exact min_le_right _ _

theorem ld_bounds (samples : List Sample) :
    0 ≤ length_distribution_score samples ∧ length_distribution_score samples ≤ 15 := by
  simp only [length_distribution_score, imin_eq]
  constructor
  · apply le_min _ (by norm_num)
    repeat' split <;> norm_num
  · exact min_le_right _ _

theorem cons_bounds (samples : List Sample) (has_dna : Bool) :
    0 ≤ consistency_score samples has_dna ∧ consistency_score samples has_dna ≤ 15 := by
  simp only [consistency_score]
  repeat' split <;> norm_num

/-- A profile dict whose `distinctive_signatures` entry is missing (the lookup
defaults to `{}`), is not a mapping, or carries no `examples` list (the lookup
defaults to `[]`). -/
def malformedSig (d : DnaDict) : Bool :=
  match sigVal d with
  | PyVal.pdict sigs =>
    match pyGetD sigs ("examples".toList) (PyVal.plist []) with
    | PyVal.plist [] => true
    | _ => false
  | _ => true

theorem sigCount_malformed (tl : Str) (d : DnaDict) (h : malformedSig d = true) :
    sigCount tl (some d) = 0 := by
  simp only [sigCount]
  unfold malformedSig at h
  split
  · rfl
  · generalize hs : sigVal d = v at h ⊢
    cases v with
    | pdict sigs =>
      dsimp only at h ⊢
      generalize he : pyGetD sigs ("examples".toList) (PyVal.plist []) = w at h ⊢
      cases w with
      | plist xs =>
        cases xs with
        | nil => rfl
        | cons a as => simp at h
      | pstr s => simp at h
      | pdict d2 => simp at h
      | pint n => simp at h
      | pnone => simp at h
    | pstr s => rfl
    | plist xs => rfl
    | pint n => rfl
    | pnone => rfl

theorem personality_malformed (t : Str) (d : DnaDict) (h : malformedSig d = true) :
    score_personality t (some d) = score_personality t none := by
  simp only [score_personality, sigCount_malformed _ _ h]
  rfl

theorem det_sum_bounds (text : Str) (dna : Option DnaDict) :
    5 ≤ score_sentence_variety text + score_vocabulary_diversity text
        + score_specificity text + score_transitions text
        + score_openings_closings text dna + score_punctuation text dna
        + score_personality text dna + score_structure text := by
  have h1 := sv_bounds text
  have h2 := vd_bounds text
  have h3 := spec_bounds text
  have h4 := tr_bounds text
  have h5 := oc_bounds text dna
  have h6 := pu_bounds text dna
  have h7 := pe_bounds text dna
  have h8 := st_bounds text
  omega

theorem conf_sum_nonneg (samples : List Sample) (has_dna : Bool) :
    0 ≤ word_count_score samples + sample_count_score samples
        + content_variety_score samples + length_distribution_score samples
        + consistency_score samples has_dna := by
  have h1 := wc_bounds samples
  have h2 := sc_bounds samples
  have h3 := cv_bounds samples
  have h4 := ld_bounds samples
  have h5 := cons_bounds samples has_dna
  omega

theorem det_cap_eq (text : Str) (dna : Option DnaDict) :
    (calculate_detection_score text dna).score
      = min (sumValues (calculate_detection_score text dna).breakdown) 100 := by
  unfold calculate_detection_score
  split
  · norm_num [sumValues]
  · dsimp only
    rw [imin_eq]

theorem det_score_bounds (text : Str) (dna : Option DnaDict) :
    0 ≤ (calculate_detection_score text dna).score
      ∧ (calculate_detection_score text dna).score ≤ 100 := by
  unfold calculate_detection_score
  split
  · norm_num
  · dsimp only
    rw [imin_eq]
    refine ⟨le_min ?_ (by norm_num), min_le_right _ _⟩
    have := det_sum_bounds text dna
    simp only [sumValues, List.map_cons, List.map_nil, List.sum_cons, List.sum_nil]
    omega

theorem det_score_lb (text : Str) (dna : Option DnaDict)
    (h : (text.isEmpty || (pyStrip text).isEmpty) = false) :
    5 ≤ (calculate_detection_score text dna).score := by
  unfold calculate_detection_score
  simp only [h, Bool.false_eq_true, if_false, imin_eq]
  refine le_min ?_ (by norm_num)
  have := det_sum_bounds text dna
  simp only [sumValues, List.map_cons, List.map_nil, List.sum_cons, List.sum_nil]
  omega

theorem conf_cap_eq (samples : List Sample) (has_dna : Bool) :
    (calculate_confidence_score samples has_dna).score
      = min (sumValues (calculate_confidence_score samples has_dna).breakdown) 100 := by
  dsimp only [calculate_confidence_score]
  rw [imin_eq]

theorem conf_score_bounds (samples : List Sample) (has_dna : Bool) :
    0 ≤ (calculate_confidence_score samples has_dna).score
      ∧ (calculate_confidence_score samples has_dna).score ≤ 100 := by
  dsimp only [calculate_confidence_score]
  rw [imin_eq]
  refine ⟨le_min ?_ (by norm_num), min_le_right _ _⟩
  have := conf_sum_nonneg samples has_dna
  simp only [sumValues, List.map_cons, List.map_nil, List.sum_cons, List.sum_nil]
  omega

/-! ## Claims -/

/-- C1: for every input to either entry point, the returned total equals the
sum of the breakdown sub-scores capped at 100, so the total always lies in
[0, 100]. -/
theorem C1_total_is_capped_sum :
    (∀ (text : Str) (dna : Option DnaDict),
      (calculate_detection_score text dna).score
          = min (sumValues (calculate_detection_score text dna).breakdown) 100
        ∧ 0 ≤ (calculate_detection_score text dna).score
        ∧ (calculate_detection_score text dna).score ≤ 100)
    ∧ (∀ (samples : List Sample) (has_dna : Bool),
      (calculate_confidence_score samples has_dna).score
          = min (sumValues (calculate_confidence_score samples has_dna).breakdown) 100
        ∧ 0 ≤ (calculate_confidence_score samples has_dna).score
        ∧ (calculate_confidence_score samples has_dna).score ≤ 100) :=
  ⟨fun text dna => ⟨det_cap_eq text dna, (det_score_bounds text dna).1,
      (det_score_bounds text dna).2⟩,
   fun samples has_dna => ⟨conf_cap_eq samples has_dna,
      (conf_score_bounds samples has_dna).1, (conf_score_bounds samples has_dna).2⟩⟩

/-- C2: for every text that is empty or consists only of whitespace,
`calculate_detection_score` returns total 0 with an empty breakdown, regardless
of the profile argument. -/
theorem C2_blank_text (text : Str) (dna : Option DnaDict)
    (h : ∀ c ∈ text, isSpaceChar c = true) :
    calculate_detection_score text dna = ⟨0, []⟩ := by
  have hdrop : text.dropWhile isSpaceChar = [] := List.dropWhile_eq_nil_iff.mpr h
  have hstrip : pyStrip text = [] := by
    unfold pyStrip
    rw [hdrop]
    rfl
  unfold calculate_detection_score
  rw [hstrip]
  simp

/-- C2 witness: whitespace-only input evaluated concretely. -/
theorem C2_blank_text_witness :
    calculate_detection_score (" \t\n".toList) none = ⟨0, []⟩ :=
  C2_blank_text (" \t\n".toList) none (by decide)

/-- C6: every sub-score of either scorer lies within its documented [0, max]
bound, on every input. -/
theorem C6_subscore_bounds :
    (∀ text : Str,
        (0 ≤ score_sentence_variety text ∧ score_sentence_variety text ≤ 20)
      ∧ (0 ≤ score_vocabulary_diversity text ∧ score_vocabulary_diversity text ≤ 15)
      ∧ (0 ≤ score_specificity text ∧ score_specificity text ≤ 15)
      ∧ (0 ≤ score_transitions text ∧ score_transitions text ≤ 10)
      ∧ (0 ≤ score_structure text ∧ score_structure text ≤ 10))
    ∧ (∀ (text : Str) (dna : Option DnaDict),
        (0 ≤ score_openings_closings text dna ∧ score_openings_closings text dna ≤ 10)
      ∧ (0 ≤ score_punctuation text dna ∧ score_punctuation text dna ≤ 10)
      ∧ (0 ≤ score_personality text dna ∧ score_personality text dna ≤ 10))
    ∧ (∀ samples : List Sample,
        (0 ≤ word_count_score samples ∧ word_count_score samples ≤ 30)
      ∧ (0 ≤ sample_count_score samples ∧ sample_count_score samples ≤ 20)
      ∧ (0 ≤ content_variety_score samples ∧ content_variety_score samples ≤ 20)
      ∧ (0 ≤ length_distribution_score samples ∧ length_distribution_score samples ≤ 15))
    ∧ (∀ (samples : List Sample) (has_dna : Bool),
        0 ≤ consistency_score samples has_dna ∧ consistency_score samples has_dna ≤ 15) := by
  refine ⟨fun text => ⟨?_, vd_bounds text |>.imp (by omega) id, spec_bounds text,
      tr_bounds text, st_bounds text⟩,
    fun text dna => ⟨oc_bounds text dna, pu_bounds text dna, pe_bounds text dna⟩,
    fun samples => ⟨wc_bounds samples, sc_bounds samples, cv_bounds samples,
      ld_bounds samples⟩,
    fun samples has_dna => cons_bounds samples has_dna⟩
  have := sv_bounds text
  omega

/-- The C3 input: 12 samples whose source kind alternates among
paste/file/url, each of 150 words (1800 words in total), no style profile. -/
def samples_C3 : List Sample :=
  [⟨150, SourceType.paste⟩, ⟨150, SourceType.file⟩, ⟨150, SourceType.url⟩,
   ⟨150, SourceType.paste⟩, ⟨150, SourceType.file⟩, ⟨150, SourceType.url⟩,
   ⟨150, SourceType.paste⟩, ⟨150, SourceType.file⟩, ⟨150, SourceType.url⟩,
   ⟨150, SourceType.paste⟩, ⟨150, SourceType.file⟩, ⟨150, SourceType.url⟩]

/-- C3 counterexample: on the claimed input the content_variety sub-score is
18 (three distinct source kinds × 5 plus 3 for the "short" size bucket), not
the claimed 15. -/
theorem C3_counterexample_content_variety :
    (calculate_confidence_score samples_C3 false).breakdown.lookup "content_variety" = some 18
    ∧ ¬ (calculate_confidence_score samples_C3 false).breakdown.lookup "content_variety"
        = some 15 := by
  constructor
  · decide
  · decide

/-- C3 amended: on the 12-sample alternating input the breakdown is
word_count 15, sample_count 20, content_variety 18 (3 kinds × 5 plus the
"short" bucket bonus 3), length_distribution 5 (uniform lengths, zero
standard deviation), consistency 8, total 66. -/
theorem C3_amended_breakdown :
    calculate_confidence_score samples_C3 false =
      ⟨66, [("word_count", 15), ("sample_count", 20), ("content_variety", 18),
            ("length_distribution", 5), ("consistency", 8)]⟩ := by
  decide

/-- C4: the source lower-cases the first sentence before testing
`first_sentence[0].isupper()`, so the +2 direct-opening bonus can never fire
on ASCII text; the text "Hi there." (capitalized first character, two words,
no generic opener, no call to action) scores opening_closing 5, where the
claim and the spec sentence demand 7. -/
theorem C4_dead_uppercase_bonus :
    score_openings_closings ("Hi there.".toList) none = 5
    ∧ (calculate_detection_score ("Hi there.".toList) none).breakdown.lookup "opening_closing"
        = some 5 := by
  constructor
  · decide
  · decide

theorem foldl_add_two (l : List Bool) (a : Int) :
    l.foldl (fun acc b => if b then acc + 2 else acc) a = a + 2 * (l.countP id : Nat) := by
  induction l generalizing a with
  | nil => simp
  | cons b t ih =>
    cases b
    · simp [ih]
    · simp only [List.foldl_cons, List.countP_cons, ih, id, if_pos, if_true]
      push_cast
      ring

theorem foldl_sub_two (l : List Str) (tl : Str) (a : Int) :
    l.foldl (fun acc p => if strHas p tl then acc - 2 else acc) a
      = a - 2 * (l.countP (fun p => strHas p tl) : Nat) := by
  induction l generalizing a with
  | nil => simp
  | cons p t ih =>
    by_cases hp : strHas p tl = true
    · simp only [List.foldl_cons, List.countP_cons, ih, hp, if_true]
      push_cast
      ring
    · simp [ih, hp]

/-- C5 counterexample: the percentages regex `\b\d{1,2}[%]\b` ends in a word
boundary right after `%`, which demands a word character immediately after the
percent sign; in "50% of users" the `%` is followed by a space, so the
category does not fire and the specificity score stays at the base 8 instead
of 10. -/
theorem C5_counterexample_percentages :
    score_specificity ("50% of users".toList) = 8
    ∧ ¬ score_specificity ("50% of users".toList) = 10 := by
  constructor
  · decide
  · decide

/-- C5 amended: each of the 7 regex categories present in the lowercased text
adds exactly 2 points, each of the 8 generic phrases present subtracts exactly
2, and the result is clamp(accumulated + 8, 0, 15); the percentages category,
however, requires a word character immediately after the `%` (the trailing
word boundary of the regex), so "50% of users" does not trigger it while "50%off sale"
does. -/
theorem C5_amended_specificity :
    (∀ text : Str, score_specificity text =
        imax 0 (imin 15 (2 * ((specificMatchers (pyLower text)).countP id : Nat)
          - 2 * ((generic_phrases.countP (fun p => strHas p (pyLower text))) : Nat) + 8)))
    ∧ pctMatch (pyLower ("50% of users".toList)) = false
    ∧ pctMatch (pyLower ("50%off sale".toList)) = true := by
  refine ⟨?_, by decide, by decide⟩
  intro text
  simp only [score_specificity, foldl_add_two, foldl_sub_two, zero_add]

/-- C7: ten samples totalling 12000 words with a style profile score strictly
higher word_count and consistency sub-scores than two samples totalling 300
words without one. -/
theorem C7_monotonic_spot (s1 s2 : List Sample)
    (h1 : s1.length = 10) (h2 : sampleWordSum s1 = 12000)
    (h3 : s2.length = 2) (h4 : sampleWordSum s2 = 300) :
    word_count_score s2 < word_count_score s1
    ∧ consistency_score s2 false < consistency_score s1 true := by
  constructor
  · simp only [word_count_score, h2, h4]
    norm_num [nmin]
  · simp only [consistency_score, h3]
    norm_num

def samples_C7a : List Sample :=
  [⟨1200, SourceType.paste⟩, ⟨1200, SourceType.paste⟩, ⟨1200, SourceType.paste⟩,
   ⟨1200, SourceType.paste⟩, ⟨1200, SourceType.paste⟩, ⟨1200, SourceType.paste⟩,
   ⟨1200, SourceType.paste⟩, ⟨1200, SourceType.paste⟩, ⟨1200, SourceType.paste⟩,
   ⟨1200, SourceType.paste⟩]

def samples_C7b : List Sample := [⟨150, SourceType.paste⟩, ⟨150, SourceType.paste⟩]

/-- C7 witness: the comparison evaluated on concrete sample lists. -/
theorem C7_monotonic_spot_witness :
    word_count_score samples_C7b < word_count_score samples_C7a
    ∧ consistency_score samples_C7b false < consistency_score samples_C7a true :=
  C7_monotonic_spot samples_C7a samples_C7b (by decide) (by decide) (by decide) (by decide)

/-- C8: the detection entry point is total — it returns a ScoreResult within
bounds for every text and profile — and a profile whose distinctive_signatures
entry is missing, not a mapping, or lacking an examples list is treated
exactly like an absent profile. -/
theorem C8_malformed_profile_tolerated :
    (∀ (text : Str) (dna : Option DnaDict),
        0 ≤ (calculate_detection_score text dna).score
      ∧ (calculate_detection_score text dna).score ≤ 100)
    ∧ (∀ (text : Str) (d : DnaDict), malformedSig d = true →
        calculate_detection_score text (some d) = calculate_detection_score text none) := by
  constructor
  · exact fun text dna => det_score_bounds text dna
  · intro text d h
    have hp := personality_malformed text d h
    have ho : score_openings_closings text (some d) = score_openings_closings text none := rfl
    have hq : score_punctuation text (some d) = score_punctuation text none := rfl
    simp only [calculate_detection_score, hp, ho, hq]

/-- C8 witness: a profile whose distinctive_signatures value is an integer
(not a mapping) is tolerated and scores like no profile at all. -/
theorem C8_malformed_profile_tolerated_witness :
    calculate_detection_score ("Hi there.".toList)
        (some [(("distinctive_signatures".toList : Str), PyVal.pint 3)])
      = calculate_detection_score ("Hi there.".toList) none :=
  C8_malformed_profile_tolerated.2 ("Hi there.".toList)
    [(("distinctive_signatures".toList : Str), PyVal.pint 3)] (by decide)

/-- C9: the detection total is 0 exactly for blank (empty or whitespace-only)
text; any other text scores at least 5, because the sentence_variety
sub-score never drops below 5. -/
theorem C9_zero_iff_blank :
    (∀ text : Str, 5 ≤ score_sentence_variety text)
    ∧ (∀ (text : Str) (dna : Option DnaDict),
        ((calculate_detection_score text dna).score = 0
          ↔ (pyStrip text).isEmpty = true)
      ∧ ((pyStrip text).isEmpty = false
          → 5 ≤ (calculate_detection_score text dna).score)) := by
  constructor
  · exact fun text => (sv_bounds text).1
  · intro text dna
    by_cases hb : (pyStrip text).isEmpty = true
    · have hz : calculate_detection_score text dna = ⟨0, []⟩ := by
        unfold calculate_detection_score
        simp [hb]
      rw [hz]
      exact ⟨⟨fun _ => hb, fun _ => rfl⟩, fun hc => absurd hb (by simp [hc])⟩
    · have hbf : (pyStrip text).isEmpty = false := by
        cases hpe : (pyStrip text).isEmpty
        · rfl
        · exact absurd hpe hb
      have hte : text.isEmpty = false := by
        cases hx : text.isEmpty
        · rfl
        · exfalso
          have : text = [] := by
            cases text
            · rfl
            · simp at hx
          rw [this] at hbf
          simp [pyStrip] at hbf
      have h5 : 5 ≤ (calculate_detection_score text dna).score :=
        det_score_lb text dna (by rw [hte, hbf]; rfl)
      refine ⟨⟨fun h0 => absurd h0 (by omega), fun hbt => absurd hbt hb⟩, fun _ => h5⟩

/-- C9 witness: a concrete non-blank text scores at least 5. -/
theorem C9_zero_iff_blank_witness :
    5 ≤ (calculate_detection_score ("Hi there.".toList) none).score :=
  (C9_zero_iff_blank.2 ("Hi there.".toList) none).2 (by decide)

/-- C10: transition presence is raw substring containment in the lowercased
text, so "and" inside "brand" counts as a natural transition; any text
containing "brand" and none of the 8 AI transitions scores
transition_naturalness at least 7. -/
theorem C10_substring_transitions (text : Str)
    (hb : strHas ("brand".toList) (pyLower text) = true)
    (hai : ∀ t ∈ ai_transitions, strHas t (pyLower text) = false) :
    7 ≤ score_transitions text := by
  have hand : strHas ("and".toList) (pyLower text) = true :=
    strHas_iff.mpr (List.IsInfix.trans ⟨['b', 'r'], [], rfl⟩ (strHas_iff.mp hb))
  have hai0 : ai_transitions.countP (fun t => strHas t (pyLower text)) = 0 := by
    rw [List.countP_eq_zero]
    intro t ht
    simp [hai t ht]
  have hnat : 0 < natural_transitions.countP (fun t => strHas t (pyLower text)) :=
    List.countP_pos_iff.mpr ⟨("and".toList), by decide, hand⟩
  simp only [score_transitions, hai0]
  rw [imax_eq, imin_eq]
  refine le_trans (le_min ?_ (by push_cast; omega)) (le_max_right _ _)
  norm_num

/-- C10 witness: "brand new day" contains no AI transition yet scores at
least 7 on transition_naturalness. -/
theorem C10_substring_transitions_witness :
    7 ≤ score_transitions ("brand new day".toList) :=
  C10_substring_transitions ("brand new day".toList) (by decide) (by decide)

end VoiceClone
